import Mathlib

/-!
Shallow embedding of the two extraction pipelines of the `Tools` repository
(`src/Pdf extractor/pdf_ocr_extractor.py` and
`src/Powerpoint Extractor/ppt_extractor.py`).

External collaborators (pdfplumber, PyMuPDF, pytesseract, python-pptx,
pandas, openai) are modelled as recorded outcomes attached to the page,
slide and shape structures: a call that may raise is an `Except String`
value, a call that may return `None` is an `Option`.  The repository's own
orchestration logic is translated function by function.
-/

namespace Tools

/-! ## Python string primitives -/

/-- Characters treated as whitespace by Python's `str.strip()`. -/
def isPySpace (c : Char) : Bool :=
  c = ' ' || c = '\t' || c = '\n' || c = '\r' || c = Char.ofNat 11 || c = Char.ofNat 12

/-- Python `s.strip()`: remove leading and trailing whitespace. -/
def pyStrip (s : String) : String :=
  String.mk (((s.data.dropWhile isPySpace).reverse.dropWhile isPySpace).reverse)

/-- Python `s.ljust(w)`: pad on the right with spaces to width `w`
(no-op when `s` is already at least `w` characters long). -/
def pyLjust (s : String) (w : Nat) : String :=
  s ++ String.mk (List.replicate (w - s.length) ' ')

/-! ## PDF pipeline: data model

A table cell as produced by `pdfplumber.extract_tables()` is a string or
`None`; a table is a list of rows of cells. -/

/-- Table cell: a string or Python `None`. -/
abbrev Cell := Option String

/-- Table: rows of cells. -/
abbrev Table := List (List Cell)

/-- One page as seen by the pdfplumber backend.  `nativeText` is the outcome
of `page.extract_text()` (`none` models Python `None`); `ocrResult` is the
joint outcome of `page.to_image()` plus `pytesseract.image_to_string`
(which `_perform_ocr_on_page` does not guard, so an exception propagates);
`tablesResult` is the outcome of `page.extract_tables()`. -/
structure PdfPlumberPage where
  nativeText : Option String
  ocrResult : Except String String
  tablesResult : Except String (List Table)

/-- One text block from PyMuPDF `page.get_text("blocks")`: the model keeps
the coordinates used as the sort key (`block[0]`, `block[1]`) and the text
payload `block[4]`; real blocks always have more than four components, so
the `len(block) > 4` guard of the source is always satisfied. -/
structure Block where
  x0 : Int
  y0 : Int
  text : String

/-- One page as seen by the PyMuPDF backend. -/
structure PyMuPdfPage where
  rawText : String
  blocks : List Block
  ocrResult : Except String String

/-- A PDF document, carrying the per-backend views of its pages.  Both
backends open the same file, so both lists describe the same pages. -/
structure PdfDocument where
  path : String
  plumberPages : List PdfPlumberPage
  mupdfPages : List PyMuPdfPage

/-- The per-page record `page_data` built by both backend passes. -/
structure PageData where
  page_number : Nat
  text : String
  tables : List Table
  extraction_method : String
  ocr_used : Bool

/-- The result dictionary built by `extract_text_from_pdf` and the two
backend passes. -/
structure PdfResult where
  file_path : String
  pages : List PageData
  total_pages : Nat
  extraction_method : String
  tables_found : Nat
  errors : List String

/-- Default page used with `List.getD` in statements about page records. -/
def defaultPageData : PageData :=
  { page_number := 0, text := "", tables := [], extraction_method := "", ocr_used := false }

/-- Default pdfplumber page used with `List.getD` in statements. -/
def defaultPlumberPage : PdfPlumberPage :=
  { nativeText := none, ocrResult := Except.error "", tablesResult := Except.ok [] }

/-! ## PDF pipeline: operations -/

/-- Model of `_perform_ocr_on_page` (pdf_ocr_extractor.py:259-267).  The
body is entirely external calls (`page.to_image()`, `pytesseract`), whose
joint outcome is recorded in the page; the source has no exception handler
here, so a failure propagates to the caller. -/
def perform_ocr_on_page (p : PdfPlumberPage) : Except String String :=
  p.ocrResult

/-- Model of `_extract_tables_from_page` (pdf_ocr_extractor.py:283-294):
keep the non-empty tables; an exception from `page.extract_tables()` is
caught and only logged, yielding the empty list. -/
def extract_tables_from_page (p : PdfPlumberPage) : List Table :=
  match p.tablesResult with
  | Except.error _ => []
  | Except.ok ts => ts.filter (fun t => !t.isEmpty)

/-- Model of `_extract_tables_from_pymupdf_page` (pdf_ocr_extractor.py:296-300):
the source always returns the empty list. -/
def extract_tables_from_pymupdf_page (_p : PyMuPdfPage) : List Table :=
  []

/-- Truthiness test `if text and text.strip():` of pdf_ocr_extractor.py:161
on the outcome of `page.extract_text()`. -/
def plumberHasText (p : PdfPlumberPage) : Bool :=
  match p.nativeText with
  | none => false
  | some t => !t.isEmpty && !(pyStrip t).isEmpty

/-- Loop body of `_extract_with_pdfplumber` (pdf_ocr_extractor.py:151-180):
build the record for one page and the error entries it contributes.  The
per-page OCR `try/except` appends an error entry and leaves the record
untouched. -/
def plumberPageData (use_ocr preserve_tables : Bool) (page_num : Nat)
    (p : PdfPlumberPage) : PageData × List String :=
  let pd : PageData :=
    { page_number := page_num, text := "", tables := [],
      extraction_method := "native", ocr_used := false }
  let step :=
    if plumberHasText p then
      ({ pd with text := p.nativeText.getD "", extraction_method := "native" },
       ([] : List String))
    else if use_ocr then
      match perform_ocr_on_page p with
      | Except.ok t =>
        ({ pd with text := t, extraction_method := "ocr", ocr_used := true }, [])
      | Except.error e =>
        (pd, ["OCR failed on page " ++ toString page_num ++ ": " ++ e])
    else (pd, [])
  if preserve_tables then
    ({ step.1 with tables := extract_tables_from_page p }, step.2)
  else step

/-- Page loop of `_extract_with_pdfplumber` (pdf_ocr_extractor.py:148-182):
append each page record, add its table count (zero when table extraction
is disabled, since the record's table list is then empty), and collect
error entries. -/
def plumberLoop (use_ocr preserve_tables : Bool) :
    List PdfPlumberPage → Nat → PdfResult → PdfResult
  | [], _, acc => acc
  | p :: ps, page_num, acc =>
    let step := plumberPageData use_ocr preserve_tables page_num p
    plumberLoop use_ocr preserve_tables ps (page_num + 1)
      { acc with
        pages := acc.pages ++ [step.1],
        tables_found := acc.tables_found + step.1.tables.length,
        errors := acc.errors ++ step.2 }

/-- Model of `_extract_with_pdfplumber` (pdf_ocr_extractor.py:133-184). -/
def extract_with_pdfplumber (doc : PdfDocument)
    (use_ocr preserve_tables _handle_multi_column : Bool) : PdfResult :=
  plumberLoop use_ocr preserve_tables doc.plumberPages 1
    { file_path := doc.path, pages := [], total_pages := doc.plumberPages.length,
      extraction_method := "pdfplumber", tables_found := 0, errors := [] }

/-- Strict lexicographic comparison on the `(b[1], b[0])` sort key used by
`_extract_text_with_column_awareness`. -/
def blockLt (a b : Block) : Bool :=
  if a.y0 < b.y0 then true
  else if a.y0 = b.y0 then decide (a.x0 < b.x0)
  else false

/-- Insert a block behind every earlier block whose key is not strictly
greater, modelling the stability of Python `list.sort`. -/
def insertBlock (a : Block) : List Block → List Block
  | [] => [a]
  | b :: bs => if blockLt a b then a :: b :: bs else b :: insertBlock a bs

/-- Stable sort of blocks by `(y0, x0)`, modelling
`blocks.sort(key=lambda b: (b[1], b[0]))` at pdf_ocr_extractor.py:250. -/
def sortBlocks (bs : List Block) : List Block :=
  bs.foldl (fun acc b => insertBlock b acc) []

/-- Model of `_extract_text_with_column_awareness`
(pdf_ocr_extractor.py:245-257): sort the blocks, keep those whose stripped
text is non-empty, and join the stripped texts with newlines. -/
def extract_text_with_column_awareness (p : PyMuPdfPage) : String :=
  String.intercalate "\n"
    (((sortBlocks p.blocks).filter (fun b => !(pyStrip b.text).isEmpty)).map
      (fun b => pyStrip b.text))

/-- Text obtained for a PyMuPDF page at pdf_ocr_extractor.py:214-217:
column-aware extraction when multi-column handling is on, otherwise
`page.get_text()`. -/
def mupdfPageText (handle_multi_column : Bool) (p : PyMuPdfPage) : String :=
  if handle_multi_column then extract_text_with_column_awareness p else p.rawText

/-- Loop body of `_extract_with_pymupdf` (pdf_ocr_extractor.py:201-240)
for the 0-based page index `idx`. -/
def mupdfPageData (use_ocr preserve_tables handle_multi_column : Bool)
    (idx : Nat) (p : PyMuPdfPage) : PageData × List String :=
  let pd : PageData :=
    { page_number := idx + 1, text := "", tables := [],
      extraction_method := "native", ocr_used := false }
  let text := mupdfPageText handle_multi_column p
  let step :=
    if !text.isEmpty && !(pyStrip text).isEmpty then
      ({ pd with text := text, extraction_method := "native" }, ([] : List String))
    else if use_ocr then
      match p.ocrResult with
      | Except.ok t =>
        ({ pd with text := t, extraction_method := "ocr", ocr_used := true }, [])
      | Except.error e =>
        (pd, ["OCR failed on page " ++ toString (idx + 1) ++ ": " ++ e])
    else (pd, [])
  if preserve_tables then
    ({ step.1 with tables := extract_tables_from_pymupdf_page p }, step.2)
  else step

/-- Page loop of `_extract_with_pymupdf`. -/
def mupdfLoop (use_ocr preserve_tables handle_multi_column : Bool) :
    List PyMuPdfPage → Nat → PdfResult → PdfResult
  | [], _, acc => acc
  | p :: ps, idx, acc =>
    let step := mupdfPageData use_ocr preserve_tables handle_multi_column idx p
    mupdfLoop use_ocr preserve_tables handle_multi_column ps (idx + 1)
      { acc with
        pages := acc.pages ++ [step.1],
        tables_found := acc.tables_found + step.1.tables.length,
        errors := acc.errors ++ step.2 }

/-- Model of `_extract_with_pymupdf` (pdf_ocr_extractor.py:186-243). -/
def extract_with_pymupdf (doc : PdfDocument)
    (use_ocr preserve_tables handle_multi_column : Bool) : PdfResult :=
  mupdfLoop use_ocr preserve_tables handle_multi_column doc.mupdfPages 0
    { file_path := doc.path, pages := [], total_pages := doc.mupdfPages.length,
      extraction_method := "pymupdf", tables_found := 0, errors := [] }

/-- Fallback test of pdf_ocr_extractor.py:123:
`not result['pages'] or all(not page.get('text', '').strip() for page in result['pages'])`. -/
def pdfFallbackCondition (r : PdfResult) : Bool :=
  r.pages.isEmpty || r.pages.all (fun pd => (pyStrip pd.text).isEmpty)

/-- Model of `extract_text_from_pdf` (pdf_ocr_extractor.py:89-131) on an
existing file: run the pdfplumber pass, and when it yields no non-empty
text on any page re-run the whole extraction with PyMuPDF.  Both backend
passes are total in the model, so the surrounding `try/except` never
fires. -/
def extract_text_from_pdf (doc : PdfDocument)
    (use_ocr preserve_tables handle_multi_column : Bool) : PdfResult :=
  let result := extract_with_pdfplumber doc use_ocr preserve_tables handle_multi_column
  if pdfFallbackCondition result then
    extract_with_pymupdf doc use_ocr preserve_tables handle_multi_column
  else result

/-! ## PowerPoint pipeline: data model

The module-level import-availability globals (`OCR_AVAILABLE`,
`PANDAS_AVAILABLE`, `OPENAI_AVAILABLE`) and the presence of an OpenAI
client handle are collected in a configuration record. -/

/-- Environment flags of ppt_extractor.py: the import guards at lines
38-59 and `self.openai_client` being set. -/
structure PptConfig where
  ocrAvailable : Bool
  pandasAvailable : Bool
  openaiAvailable : Bool
  hasOpenaiClient : Bool

/-- Image payload (`shape.image.blob`), modelled as a byte list. -/
abbrev Blob := List Nat

/-- A slide shape, following the dispatch of `_extract_slide_content`
(ppt_extractor.py:235-273): a text frame carries its paragraphs' raw
texts; a table shape carries the outcome of reading `shape.table` (rows
of raw cell texts, or an exception); a picture carries the outcome of
`shape.image.blob` and the recorded outcome of running pytesseract on
that blob; a group carries its member shapes; any other shape is
skipped. -/
inductive Shape where
  | textFrame (paragraphs : List String)
  | table (tableAccess : Except String (List (List String)))
  | picture (imageAccess : Except String Blob) (ocrOutcome : Except String String)
  | group (shapes : List Shape)
  | other

/-- Whether a shape is a picture (used to state claims about slides that
contain only images). -/
def Shape.isPicture : Shape → Bool
  | Shape.picture _ _ => true
  | _ => false

/-- One slide: notes text when the slide has a notes slide with a notes
text frame, the shape collection in traversal order, and the recorded
outcome of the chat-completion call on this slide's text
(`response.choices[0].message.content`, or the exception raised). -/
structure Slide where
  notesText : Option String
  shapes : List Shape
  llmResponse : Except String String

/-- Default slide for `List.getD`; the slide index computed by the source
is always in range, so this default is never selected. -/
def defaultSlide : Slide :=
  { notesText := none, shapes := [], llmResponse := Except.error "" }

/-- The per-slide record `slide_data` built by `_extract_slide_content`. -/
structure SlideData where
  slide_number : Nat
  text : String
  tables : List (List (List String))
  images : List Blob
  notes : String
  extraction_method : String
  ocr_used : Bool
  llm_formatted : Bool

/-- The result dictionary built by `extract_text_from_pptx`. -/
structure PptxResult where
  file_path : String
  slides : List SlideData
  total_slides : Nat
  slides_processed : Nat
  tables_found : Nat
  errors : List String

/-- A PowerPoint document: file path and slides. -/
structure PptxDocument where
  path : String
  slides : List Slide

/-! ## PowerPoint pipeline: operations -/

/-- Model of `_extract_text_from_text_frame` (ppt_extractor.py:292-299):
strip each paragraph, keep the non-empty ones, join with newlines. -/
def extract_text_from_text_frame (paragraphs : List String) : String :=
  String.intercalate "\n" ((paragraphs.map pyStrip).filter (fun t => !t.isEmpty))

/-- Texts collected by `_extract_text_from_group` in traversal order:
only direct children with a text frame contribute (nested groups are not
recursed into by the source). -/
def groupTexts : List Shape → List String
  | [] => []
  | Shape.textFrame ps :: rest =>
    let t := extract_text_from_text_frame ps
    if !t.isEmpty then t :: groupTexts rest else groupTexts rest
  | _ :: rest => groupTexts rest

/-- Model of `_extract_text_from_group` (ppt_extractor.py:301-309). -/
def extract_text_from_group (shapes : List Shape) : String :=
  String.intercalate "\n" (groupTexts shapes)

/-- Model of `_extract_table_from_shape` (ppt_extractor.py:311-330):
`None` when pandas is unavailable or reading the table raises; otherwise
the rows with each cell text stripped. -/
def extract_table_from_shape (cfg : PptConfig)
    (tableAccess : Except String (List (List String))) :
    Option (List (List String)) :=
  if !cfg.pandasAvailable then none
  else
    match tableAccess with
    | Except.error _ => none
    | Except.ok rows => some (rows.map (fun r => r.map pyStrip))

/-- Model of `_extract_image_from_shape` (ppt_extractor.py:332-339):
`None` when reading `shape.image.blob` raises. -/
def extract_image_from_shape (imageAccess : Except String Blob) : Option Blob :=
  match imageAccess with
  | Except.error _ => none
  | Except.ok b => some b

/-- Model of `_perform_ocr_on_image` (ppt_extractor.py:341-352): empty
string when OCR is unavailable or the engine raises, otherwise the
recognized text. -/
def perform_ocr_on_image (cfg : PptConfig) (ocrOutcome : Except String String) : String :=
  if !cfg.ocrAvailable then ""
  else
    match ocrOutcome with
    | Except.ok t => t
    | Except.error _ => ""

/-- Accumulator of the shape loop of `_extract_slide_content`: the local
lists `text_parts`, `tables`, `images` and the `ocr_used` flag set during
the loop. -/
structure ShapeAcc where
  textParts : List String
  tables : List (List (List String))
  images : List Blob
  ocrUsed : Bool

/-- One iteration of the shape loop of `_extract_slide_content`
(ppt_extractor.py:235-273).  Every branch mirrors the source: a text
frame or group contributes its text when non-empty; a table shape
contributes its data when truthy (non-`None` and non-empty); a picture is
handled only when OCR is requested and available, its blob is kept when
truthy, and OCR text is appended (setting the OCR flag) when non-empty.
The per-shape `try/except` never fires because every modelled operation
is total. -/
def shapeStep (cfg : PptConfig) (use_ocr : Bool) (acc : ShapeAcc) : Shape → ShapeAcc
  | Shape.textFrame ps =>
    let t := extract_text_from_text_frame ps
    if !t.isEmpty then { acc with textParts := acc.textParts ++ [t] } else acc
  | Shape.table tableAccess =>
    match extract_table_from_shape cfg tableAccess with
    | some td => if !td.isEmpty then { acc with tables := acc.tables ++ [td] } else acc
    | none => acc
  | Shape.picture imageAccess ocrOutcome =>
    if use_ocr && cfg.ocrAvailable then
      match extract_image_from_shape imageAccess with
      | some b =>
        if !b.isEmpty then
          let acc' := { acc with images := acc.images ++ [b] }
          let t := perform_ocr_on_image cfg ocrOutcome
          if !t.isEmpty then
            { acc' with textParts := acc'.textParts ++ ["[Image OCR]: " ++ t],
                        ocrUsed := true }
          else acc'
        else acc
      | none => acc
    else acc
  | Shape.group shapes =>
    let t := extract_text_from_group shapes
    if !t.isEmpty then { acc with textParts := acc.textParts ++ [t] } else acc
  | Shape.other => acc

/-- Lines assembled by `_format_text_parts` (ppt_extractor.py:354-368):
each part with non-blank content is kept, followed by an empty separator
line unless it is the last part. -/
def formatPartsList : List String → List String
  | [] => []
  | [p] => if !(pyStrip p).isEmpty then [p] else []
  | p :: rest => (if !(pyStrip p).isEmpty then [p, ""] else []) ++ formatPartsList rest

/-- Model of `_format_text_parts`. -/
def format_text_parts (parts : List String) : String :=
  if parts.isEmpty then "" else String.intercalate "\n" (formatPartsList parts)

/-- Model of `_format_text_with_llm` (ppt_extractor.py:370-405): without
an available client the input text is returned; otherwise the stripped
response content, and the original text when the chat-completion call
raises (the exception is caught inside this function). -/
def format_text_with_llm (cfg : PptConfig) (llmResponse : Except String String)
    (text : String) : String :=
  if !cfg.openaiAvailable || !cfg.hasOpenaiClient then text
  else
    match llmResponse with
    | Except.ok content => pyStrip content
    | Except.error _ => text

/-- Model of `_extract_slide_content` (ppt_extractor.py:212-290).  The
`extraction_method` field starts as `"native"` and is never changed
by the source.  In the LLM branch the guarded `try` body always completes
because `_format_text_with_llm` swallows its own exceptions, so the text
is replaced by its return value and `llm_formatted` is set to `true`
whenever the branch is entered. -/
def extract_slide_content (cfg : PptConfig) (slide : Slide) (slide_num : Nat)
    (use_ocr use_llm_formatting : Bool) : SlideData :=
  let notes := slide.notesText.getD ""
  let acc := slide.shapes.foldl (shapeStep cfg use_ocr)
    { textParts := [], tables := [], images := [], ocrUsed := false }
  let text0 := format_text_parts acc.textParts
  let step :=
    if use_llm_formatting && cfg.openaiAvailable && cfg.hasOpenaiClient then
      (format_text_with_llm cfg slide.llmResponse text0, true)
    else (text0, false)
  { slide_number := slide_num, text := step.1, tables := acc.tables,
    images := acc.images, notes := notes, extraction_method := "native",
    ocr_used := acc.ocrUsed, llm_formatted := step.2 }

/-- The in-range filter of ppt_extractor.py:178:
`[sn for sn in slide_numbers if 1 <= sn <= total_slides]`. -/
def validSlideNumbers (total : Nat) (sns : List Nat) : List Nat :=
  sns.filter (fun sn => decide (1 ≤ sn) && decide (sn ≤ total))

/-- Validation step of `extract_text_from_pptx` (ppt_extractor.py:177-181):
a truthy (non-empty) request list is filtered to the slides in range, and
replaced by `None` when nothing remains. -/
def validate_slide_numbers (total : Nat) : Option (List Nat) → Option (List Nat)
  | none => none
  | some sns =>
    if !sns.isEmpty then
      let valid := validSlideNumbers total sns
      if valid.isEmpty then none else some valid
    else some sns

/-- Selection of ppt_extractor.py:192:
`slide_numbers if slide_numbers else list(range(1, total_slides + 1))`. -/
def slidesToProcess (total : Nat) : Option (List Nat) → List Nat
  | none => List.range' 1 total
  | some sns => if !sns.isEmpty then sns else List.range' 1 total

/-- Slide loop of `extract_text_from_pptx` (ppt_extractor.py:194-208).
Every slide number reaching the loop is in `[1, total]`, so the indexing
`prs.slides[slide_num - 1]` always succeeds and the `try/except` of the
loop never fires in the model. -/
def pptxLoop (cfg : PptConfig) (doc : PptxDocument)
    (use_ocr use_llm_formatting : Bool) : List Nat → PptxResult → PptxResult
  | [], acc => acc
  | sn :: rest, acc =>
    let slide := doc.slides.getD (sn - 1) defaultSlide
    let sd := extract_slide_content cfg slide sn use_ocr use_llm_formatting
    pptxLoop cfg doc use_ocr use_llm_formatting rest
      { acc with
        slides := acc.slides ++ [sd],
        slides_processed := acc.slides_processed + 1,
        tables_found := acc.tables_found + sd.tables.length }

/-- Model of `extract_text_from_pptx` (ppt_extractor.py:154-210) on an
existing file. -/
def extract_text_from_pptx (cfg : PptConfig) (doc : PptxDocument)
    (slide_numbers : Option (List Nat)) (use_ocr use_llm_formatting : Bool) :
    PptxResult :=
  let total := doc.slides.length
  let validated := validate_slide_numbers total slide_numbers
  pptxLoop cfg doc use_ocr use_llm_formatting (slidesToProcess total validated)
    { file_path := doc.path, slides := [], total_slides := total,
      slides_processed := 0, tables_found := 0, errors := [] }

/-! ## Table formatter (`format_tables_as_text`, pdf_ocr_extractor.py:302-332) -/

/-- Python `str(cell)` on a table cell: `str(None)` is `"None"`. -/
def cellStr : Cell → String
  | none => "None"
  | some s => s

/-- Python truthiness of a table cell used at pdf_ocr_extractor.py:327:
`None` and the empty string are falsy. -/
def cellTruthy : Cell → Bool
  | none => false
  | some s => !s.isEmpty

/-- Rendering of one cell at pdf_ocr_extractor.py:327-328:
`str(cell) if cell else ""`, left-justified to the column width. -/
def renderCell (width : Nat) (c : Cell) : String :=
  pyLjust (if cellTruthy c then cellStr c else "") width

/-- One pass of the width loop (pdf_ocr_extractor.py:317-321) over a
single row: widths beyond the current list start at zero and every
position takes the maximum of the previous width and `len(str(cell))`. -/
def updateWidths : List Nat → List Cell → List Nat
  | ws, [] => ws
  | [], c :: cs => Nat.max 0 (cellStr c).length :: updateWidths [] cs
  | w :: ws, c :: cs => Nat.max w (cellStr c).length :: updateWidths ws cs

/-- The `max_widths` list of pdf_ocr_extractor.py:316-321. -/
def maxWidths (table : List (List Cell)) : List Nat :=
  table.foldl updateWidths []

/-- Formatted cells of one row (pdf_ocr_extractor.py:325-329): only the
cells present in the row are rendered, each at `max_widths[col_idx]`. -/
def formatRowCells (ws : List Nat) : Nat → List Cell → List String
  | _, [] => []
  | idx, c :: cs => renderCell (ws.getD idx 0) c :: formatRowCells ws (idx + 1) cs

/-- One formatted row line (pdf_ocr_extractor.py:330). -/
def formatRow (ws : List Nat) (row : List Cell) : String :=
  String.intercalate " | " (formatRowCells ws 0 row)

/-- Lines contributed by one table (pdf_ocr_extractor.py:311-330). -/
def tableLines (t : List (List Cell)) : List String :=
  if t.isEmpty then ["(Empty table)"]
  else t.map (formatRow (maxWidths t))

/-- The `formatted_tables` line list (pdf_ocr_extractor.py:307-330). -/
def formatTablesLines : Nat → List (List (List Cell)) → List String
  | _, [] => []
  | i, t :: ts =>
    ("\n--- Table " ++ toString i ++ " ---") :: (tableLines t ++ formatTablesLines (i + 1) ts)

/-- Model of `format_tables_as_text` (pdf_ocr_extractor.py:302-332). -/
def format_tables_as_text (tables : List (List (List Cell))) : String :=
  if tables.isEmpty then ""
  else String.intercalate "\n" (formatTablesLines 1 tables)

/-- Modelled from the claim's words, for comparison with the source
function: a row shorter than the widest row has its missing cells
rendered as empty strings padded to the column width. -/
def claimFormatRow (ws : List Nat) (ncols : Nat) (row : List Cell) : String :=
  String.intercalate " | "
    ((List.range ncols).map (fun j =>
      match row.get? j with
      | some c => renderCell (ws.getD j 0) c
      | none => pyLjust "" (ws.getD j 0)))

/-- Claim-words variant of the per-table lines. -/
def claimTableLines (t : List (List Cell)) : List String :=
  if t.isEmpty then ["(Empty table)"]
  else t.map (claimFormatRow (maxWidths t) (maxWidths t).length)

/-- Claim-words variant of the line list. -/
def claimTablesLines : Nat → List (List (List Cell)) → List String
  | _, [] => []
  | i, t :: ts =>
    ("\n--- Table " ++ toString i ++ " ---") :: (claimTableLines t ++ claimTablesLines (i + 1) ts)

/-- Claim-words variant of the whole formatter: identical to
`format_tables_as_text` except that missing cells of short rows render as
empty strings. -/
def format_tables_as_text_claim (tables : List (List (List Cell))) : String :=
  if tables.isEmpty then ""
  else String.intercalate "\n" (claimTablesLines 1 tables)

/-- Maximum of `len(str(cell))` over the entries actually present in
column `j` of the table (the amended claim's column width). -/
def colMax (t : List (List Cell)) (j : Nat) : Nat :=
  t.foldl (fun m row => Nat.max m (((row.get? j).map (fun c => (cellStr c).length)).getD 0)) 0

/-- Amended rendering of one row: exactly the row's own cells, the cell in
column `j` left-justified to the columnwise maximum width. -/
def amendedFormatRow (t : List (List Cell)) (row : List Cell) : String :=
  String.intercalate " | " (row.enum.map (fun p => renderCell (colMax t p.1) p.2))

/-- Amended per-table lines. -/
def amendedTableLines (t : List (List Cell)) : List String :=
  if t.isEmpty then ["(Empty table)"]
  else t.map (amendedFormatRow t)

/-- Amended line list. -/
def amendedTablesLines : Nat → List (List (List Cell)) → List String
  | _, [] => []
  | i, t :: ts =>
    ("\n--- Table " ++ toString i ++ " ---") :: (amendedTableLines t ++ amendedTablesLines (i + 1) ts)

/-- Amended formatter: each rendered row holds exactly the cells of its
source row (absent cells are omitted), and each column's width is the
maximum `len(str(cell))` over the entries seen in that column. -/
def format_tables_as_text_amended (tables : List (List (List Cell))) : String :=
  if tables.isEmpty then ""
  else String.intercalate "\n" (amendedTablesLines 1 tables)

/-! ## Worksheet name sanitization (`save_tables_to_excel`, ppt_extractor.py:455-464) -/

/-- The characters Excel forbids in sheet names, in the replacement order
of ppt_extractor.py:459. -/
def excelInvalidChars : List Char :=
  ['\\', '/', '?', '*', '[', ']', ':', Char.ofNat 39]

/-- Python `s.replace(target, '_')` for a single-character pattern. -/
def replaceChar (target : Char) (s : String) : String :=
  String.mk (s.data.map (fun c => if c = target then '_' else c))

/-- Name sanitization of `save_tables_to_excel` (ppt_extractor.py:458-464):
replace every occurrence of each invalid character with an underscore,
then truncate a name longer than 31 characters to its first 31
characters. -/
def sanitize_sheet_name (s : String) : String :=
  let replaced := excelInvalidChars.foldl (fun acc c => replaceChar c acc) s
  if replaced.length > 31 then String.mk (replaced.data.take 31) else replaced

/-- Worksheet name generated for table `i` (1-indexed) of a slide
(ppt_extractor.py:457): `Slide{n}_Table{i}` passed through the
sanitizer. -/
def sheet_name_for (slide_number table_index : Nat) : String :=
  sanitize_sheet_name ("Slide" ++ toString slide_number ++ "_Table" ++ toString table_index)

/-! ## Derived definitions used in statements -/

/-- Whether a picture shape contributes OCR text: its blob is readable and
truthy, and OCR on it yields a non-empty string. -/
def picProducesOcrText (cfg : PptConfig) : Shape → Bool
  | Shape.picture imageAccess ocrOutcome =>
    (match extract_image_from_shape imageAccess with
     | some b => !b.isEmpty && !(perform_ocr_on_image cfg ocrOutcome).isEmpty
     | none => false)
  | _ => false

/-- Slide records produced by the slide loop. -/
def pptxSlidesList (cfg : PptConfig) (doc : PptxDocument)
    (use_ocr use_llm_formatting : Bool) (nums : List Nat) : List SlideData :=
  nums.map (fun sn =>
    extract_slide_content cfg (doc.slides.getD (sn - 1) defaultSlide) sn
      use_ocr use_llm_formatting)

/-- Default PyMuPDF page used with `List.getD` in statements. -/
def defaultMupdfPage : PyMuPdfPage :=
  { rawText := "", blocks := [], ocrResult := Except.error "" }

/-! ## Concrete inputs used by witnesses and counterexamples -/

/-- Fully available environment: OCR, pandas and an OpenAI client. -/
def cfgAll : PptConfig :=
  { ocrAvailable := true, pandasAvailable := true, openaiAvailable := true,
    hasOpenaiClient := true }

/-- A slide whose only shape is a picture with readable OCR text. -/
def onlyImageSlide : Slide :=
  { notesText := none,
    shapes := [Shape.picture (Except.ok [1]) (Except.ok "scanned words")],
    llmResponse := Except.error "" }

/-- A slide with one text box whose chat-completion call raises. -/
def llmFailSlide : Slide :=
  { notesText := none, shapes := [Shape.textFrame ["Hello world"]],
    llmResponse := Except.error "network error" }

/-- A scanned document: the pdfplumber view yields no text, the PyMuPDF
view recovers some. -/
def fallbackDoc : PdfDocument :=
  { path := "scan.pdf",
    plumberPages :=
      [{ nativeText := none, ocrResult := Except.error "no ocr",
         tablesResult := Except.ok [] }],
    mupdfPages :=
      [{ rawText := "recovered text", blocks := [], ocrResult := Except.ok "" }] }

/-- A document with native text in both backend views. -/
def nativeTextDoc : PdfDocument :=
  { path := "doc.pdf",
    plumberPages :=
      [{ nativeText := some "Hello PDF", ocrResult := Except.error "",
         tablesResult := Except.ok [] }],
    mupdfPages :=
      [{ rawText := "Hello PDF", blocks := [{ x0 := 0, y0 := 0, text := "Hello PDF" }],
         ocrResult := Except.error "" }] }

/-- A three-slide presentation of empty slides. -/
def pptxDoc3 : PptxDocument :=
  { path := "deck.pptx", slides := [defaultSlide, defaultSlide, defaultSlide] }

/-- A table whose second row is shorter than its first. -/
def raggedTable : List (List Cell) :=
  [[some "ab", some "cd"], [some "x"]]

/-- A page on which the OCR engine raises. -/
def failingOcrPage : PdfPlumberPage :=
  { nativeText := none, ocrResult := Except.error "tesseract failure",
    tablesResult := Except.ok [] }

/-- A text-free page on which OCR succeeds. -/
def pdfOcrPage : PdfPlumberPage :=
  { nativeText := none, ocrResult := Except.ok "ocr text",
    tablesResult := Except.ok [] }

/-- A page carrying one non-empty and one empty extracted table. -/
def tablePage : PdfPlumberPage :=
  { nativeText := some "text", ocrResult := Except.error "",
    tablesResult := Except.ok [[[some "a"]], []] }

/-- An accumulator as built before the first page is processed. -/
def emptyPdfResult : PdfResult :=
  { file_path := "x.pdf", pages := [], total_pages := 1,
    extraction_method := "pdfplumber", tables_found := 0, errors := [] }

/-! ## Helper lemmas: PDF page loops -/

/-- Page records produced by the pdfplumber loop from page number `n` on. -/
def plumberPagesList (use_ocr preserve_tables : Bool) : Nat → List PdfPlumberPage → List PageData
  | _, [] => []
  | n, pg :: ps =>
    (plumberPageData use_ocr preserve_tables n pg).1 ::
      plumberPagesList use_ocr preserve_tables (n + 1) ps

/-- Page records produced by the PyMuPDF loop from index `idx` on. -/
def mupdfPagesList (use_ocr preserve_tables handle_multi_column : Bool) :
    Nat → List PyMuPdfPage → List PageData
  | _, [] => []
  | idx, pg :: ps =>
    (mupdfPageData use_ocr preserve_tables handle_multi_column idx pg).1 ::
      mupdfPagesList use_ocr preserve_tables handle_multi_column (idx + 1) ps

theorem plumberLoop_pages (use_ocr preserve_tables : Bool) :
    ∀ (ps : List PdfPlumberPage) (n : Nat) (acc : PdfResult),
      (plumberLoop use_ocr preserve_tables ps n acc).pages
        = acc.pages ++ plumberPagesList use_ocr preserve_tables n ps := by
  intro ps
  induction ps with
  | nil => intro n acc; simp [plumberLoop, plumberPagesList]
  | cons pg ps ih =>
    intro n acc
    simp [plumberLoop, plumberPagesList, ih]

theorem mupdfLoop_pages (use_ocr preserve_tables handle_multi_column : Bool) :
    ∀ (ps : List PyMuPdfPage) (idx : Nat) (acc : PdfResult),
      (mupdfLoop use_ocr preserve_tables handle_multi_column ps idx acc).pages
        = acc.pages ++ mupdfPagesList use_ocr preserve_tables handle_multi_column idx ps := by
  intro ps
  induction ps with
  | nil => intro idx acc; simp [mupdfLoop, mupdfPagesList]
  | cons pg ps ih =>
    intro idx acc
    simp [mupdfLoop, mupdfPagesList, ih]

theorem plumberLoop_total_pages (use_ocr preserve_tables : Bool) :
    ∀ (ps : List PdfPlumberPage) (n : Nat) (acc : PdfResult),
      (plumberLoop use_ocr preserve_tables ps n acc).total_pages = acc.total_pages := by
  intro ps
  induction ps with
  | nil => intro n acc; simp [plumberLoop]
  | cons pg ps ih => intro n acc; simp [plumberLoop, ih]

theorem mupdfLoop_total_pages (use_ocr preserve_tables handle_multi_column : Bool) :
    ∀ (ps : List PyMuPdfPage) (idx : Nat) (acc : PdfResult),
      (mupdfLoop use_ocr preserve_tables handle_multi_column ps idx acc).total_pages
        = acc.total_pages := by
  intro ps
  induction ps with
  | nil => intro idx acc; simp [mupdfLoop]
  | cons pg ps ih => intro idx acc; simp [mupdfLoop, ih]

theorem plumberLoop_extraction_method (use_ocr preserve_tables : Bool) :
    ∀ (ps : List PdfPlumberPage) (n : Nat) (acc : PdfResult),
      (plumberLoop use_ocr preserve_tables ps n acc).extraction_method
        = acc.extraction_method := by
  intro ps
  induction ps with
  | nil => intro n acc; simp [plumberLoop]
  | cons pg ps ih => intro n acc; simp [plumberLoop, ih]

theorem mupdfLoop_extraction_method (use_ocr preserve_tables handle_multi_column : Bool) :
    ∀ (ps : List PyMuPdfPage) (idx : Nat) (acc : PdfResult),
      (mupdfLoop use_ocr preserve_tables handle_multi_column ps idx acc).extraction_method
        = acc.extraction_method := by
  intro ps
  induction ps with
  | nil => intro idx acc; simp [mupdfLoop]
  | cons pg ps ih => intro idx acc; simp [mupdfLoop, ih]

theorem plumberPagesList_length (use_ocr preserve_tables : Bool) :
    ∀ (ps : List PdfPlumberPage) (n : Nat),
      (plumberPagesList use_ocr preserve_tables n ps).length = ps.length := by
  intro ps
  induction ps with
  | nil => intro n; simp [plumberPagesList]
  | cons pg ps ih => intro n; simp [plumberPagesList, ih]

theorem mupdfPagesList_length (use_ocr preserve_tables handle_multi_column : Bool) :
    ∀ (ps : List PyMuPdfPage) (idx : Nat),
      (mupdfPagesList use_ocr preserve_tables handle_multi_column idx ps).length
        = ps.length := by
  intro ps
  induction ps with
  | nil => intro idx; simp [mupdfPagesList]
  | cons pg ps ih => intro idx; simp [mupdfPagesList, ih]

theorem plumberPageData_page_number (use_ocr preserve_tables : Bool)
    (n : Nat) (pg : PdfPlumberPage) :
    (plumberPageData use_ocr preserve_tables n pg).1.page_number = n := by
  unfold plumberPageData
  cases h : perform_ocr_on_page pg <;> split_ifs <;> simp_all

theorem mupdfPageData_page_number (use_ocr preserve_tables handle_multi_column : Bool)
    (idx : Nat) (pg : PyMuPdfPage) :
    (mupdfPageData use_ocr preserve_tables handle_multi_column idx pg).1.page_number
      = idx + 1 := by
  unfold mupdfPageData
  cases h : pg.ocrResult <;> split_ifs <;> simp_all <;> split_ifs <;> rfl

theorem plumberPagesList_map_page_number (use_ocr preserve_tables : Bool) :
    ∀ (ps : List PdfPlumberPage) (n : Nat),
      (plumberPagesList use_ocr preserve_tables n ps).map (fun pd => pd.page_number)
        = List.range' n ps.length := by
  intro ps
  induction ps with
  | nil => intro n; simp [plumberPagesList]
  | cons pg ps ih =>
    intro n
    simp [plumberPagesList, plumberPageData_page_number, ih, List.range'_succ]

theorem mupdfPagesList_map_page_number (use_ocr preserve_tables handle_multi_column : Bool) :
    ∀ (ps : List PyMuPdfPage) (idx : Nat),
      (mupdfPagesList use_ocr preserve_tables handle_multi_column idx ps).map
          (fun pd => pd.page_number)
        = List.range' (idx + 1) ps.length := by
  intro ps
  induction ps with
  | nil => intro idx; simp [mupdfPagesList]
  | cons pg ps ih =>
    intro idx
    simp [mupdfPagesList, mupdfPageData_page_number, ih, List.range'_succ]

theorem plumberPagesList_getD (use_ocr preserve_tables : Bool) :
    ∀ (ps : List PdfPlumberPage) (n i : Nat), i < ps.length →
      (plumberPagesList use_ocr preserve_tables n ps).getD i defaultPageData
        = (plumberPageData use_ocr preserve_tables (n + i)
            (ps.getD i defaultPlumberPage)).1 := by
  intro ps
  induction ps with
  | nil => intro n i h; simp at h
  | cons pg ps ih =>
    intro n i h
    cases i with
    | zero => simp [plumberPagesList]
    | succ j =>
      have hj : j < ps.length := Nat.lt_of_succ_lt_succ h
      simp only [plumberPagesList, List.getD_cons_succ]
      rw [ih (n + 1) j hj]
      have harith : n + 1 + j = n + (j + 1) := by omega
      rw [harith]

theorem mupdfPagesList_getD (use_ocr preserve_tables handle_multi_column : Bool)
    (dp : PyMuPdfPage) :
    ∀ (ps : List PyMuPdfPage) (idx i : Nat), i < ps.length →
      (mupdfPagesList use_ocr preserve_tables handle_multi_column idx ps).getD i defaultPageData
        = (mupdfPageData use_ocr preserve_tables handle_multi_column (idx + i)
            (ps.getD i dp)).1 := by
  intro ps
  induction ps with
  | nil => intro idx i h; simp at h
  | cons pg ps ih =>
    intro idx i h
    cases i with
    | zero => simp [mupdfPagesList]
    | succ j =>
      have hj : j < ps.length := Nat.lt_of_succ_lt_succ h
      simp only [mupdfPagesList, List.getD_cons_succ]
      rw [ih (idx + 1) j hj]
      have harith : idx + 1 + j = idx + (j + 1) := by omega
      rw [harith]

/-! ## Helper lemmas: single-page branches -/

theorem plumberPageData_of_hasText (use_ocr preserve_tables : Bool)
    (n : Nat) (pg : PdfPlumberPage) (h : plumberHasText pg = true) :
    (plumberPageData use_ocr preserve_tables n pg).1.text = pg.nativeText.getD ""
      ∧ (plumberPageData use_ocr preserve_tables n pg).1.extraction_method = "native"
      ∧ (plumberPageData use_ocr preserve_tables n pg).1.ocr_used = false
      ∧ (plumberPageData use_ocr preserve_tables n pg).2 = [] := by
  unfold plumberPageData
  cases preserve_tables <;> simp [h]

theorem plumberPageData_ocr_ok (preserve_tables : Bool)
    (n : Nat) (pg : PdfPlumberPage) (t : String)
    (h : plumberHasText pg = false) (hocr : pg.ocrResult = Except.ok t) :
    (plumberPageData true preserve_tables n pg).1.text = t
      ∧ (plumberPageData true preserve_tables n pg).1.extraction_method = "ocr"
      ∧ (plumberPageData true preserve_tables n pg).1.ocr_used = true
      ∧ (plumberPageData true preserve_tables n pg).2 = [] := by
  unfold plumberPageData perform_ocr_on_page
  cases preserve_tables <;> simp [h, hocr]

theorem plumberPageData_ocr_err (preserve_tables : Bool)
    (n : Nat) (pg : PdfPlumberPage) (e : String)
    (h : plumberHasText pg = false) (hocr : pg.ocrResult = Except.error e) :
    (plumberPageData true preserve_tables n pg).1.text = ""
      ∧ (plumberPageData true preserve_tables n pg).1.extraction_method = "native"
      ∧ (plumberPageData true preserve_tables n pg).1.ocr_used = false
      ∧ (plumberPageData true preserve_tables n pg).2
          = ["OCR failed on page " ++ toString n ++ ": " ++ e] := by
  unfold plumberPageData perform_ocr_on_page
  cases preserve_tables <;> simp [h, hocr]

theorem plumberPageData_no_ocr (preserve_tables : Bool)
    (n : Nat) (pg : PdfPlumberPage) (h : plumberHasText pg = false) :
    (plumberPageData false preserve_tables n pg).1.text = ""
      ∧ (plumberPageData false preserve_tables n pg).1.ocr_used = false
      ∧ (plumberPageData false preserve_tables n pg).2 = [] := by
  unfold plumberPageData
  cases preserve_tables <;> simp [h]

theorem mupdfPageData_of_text (use_ocr preserve_tables handle_multi_column : Bool)
    (idx : Nat) (pg : PyMuPdfPage)
    (h : (pyStrip (mupdfPageText handle_multi_column pg)).isEmpty = false) :
    (mupdfPageData use_ocr preserve_tables handle_multi_column idx pg).1.text
        = mupdfPageText handle_multi_column pg
      ∧ (mupdfPageData use_ocr preserve_tables handle_multi_column idx pg).1.extraction_method
        = "native"
      ∧ (mupdfPageData use_ocr preserve_tables handle_multi_column idx pg).1.ocr_used
        = false := by
  have hne : (mupdfPageText handle_multi_column pg).isEmpty = false := by
    cases hempty : (mupdfPageText handle_multi_column pg).isEmpty
    · rfl
    · have heq : mupdfPageText handle_multi_column pg = "" :=
        (String.isEmpty_iff _).mp hempty
      rw [heq] at h
      exact absurd h (by decide)
  unfold mupdfPageData
  cases preserve_tables <;> simp [hne, h, extract_tables_from_pymupdf_page]

theorem plumberPageData_tables (use_ocr preserve_tables : Bool)
    (n : Nat) (pg : PdfPlumberPage) :
    (plumberPageData use_ocr preserve_tables n pg).1.tables
      = (if preserve_tables then extract_tables_from_page pg else []) := by
  unfold plumberPageData
  cases h : perform_ocr_on_page pg <;> cases preserve_tables <;> split_ifs <;> simp_all

theorem mupdfPageData_tables (use_ocr preserve_tables handle_multi_column : Bool)
    (idx : Nat) (pg : PyMuPdfPage) :
    (mupdfPageData use_ocr preserve_tables handle_multi_column idx pg).1.tables = [] := by
  unfold mupdfPageData
  cases h : pg.ocrResult <;> cases preserve_tables <;>
    simp_all [extract_tables_from_pymupdf_page] <;> split_ifs <;> rfl

/-- Tables recorded for a pdfplumber page are exactly the non-empty ones. -/
theorem plumberPageData_tables_filter (use_ocr preserve_tables : Bool)
    (n : Nat) (pg : PdfPlumberPage) :
    (plumberPageData use_ocr preserve_tables n pg).1.tables.filter (fun t => !t.isEmpty)
      = (plumberPageData use_ocr preserve_tables n pg).1.tables := by
  rw [plumberPageData_tables]
  cases preserve_tables
  · simp
  · simp only [if_pos]
    apply List.filter_eq_self.mpr
    intro t ht
    unfold extract_tables_from_page at ht
    cases htab : pg.tablesResult with
    | error e => rw [htab] at ht; simp at ht
    | ok ts =>
      rw [htab] at ht
      simp [List.mem_filter] at ht
      simpa using ht.2

/-! ## Helper lemmas: table counts through the loops -/

theorem plumberLoop_tables_found (use_ocr preserve_tables : Bool) :
    ∀ (ps : List PdfPlumberPage) (n : Nat) (acc : PdfResult),
      (plumberLoop use_ocr preserve_tables ps n acc).tables_found
        = acc.tables_found
          + ((plumberPagesList use_ocr preserve_tables n ps).map
              (fun pd => pd.tables.length)).sum := by
  intro ps
  induction ps with
  | nil => intro n acc; simp [plumberLoop, plumberPagesList]
  | cons pg ps ih =>
    intro n acc
    simp [plumberLoop, plumberPagesList, ih]
    omega

theorem mupdfLoop_tables_found (use_ocr preserve_tables handle_multi_column : Bool) :
    ∀ (ps : List PyMuPdfPage) (idx : Nat) (acc : PdfResult),
      (mupdfLoop use_ocr preserve_tables handle_multi_column ps idx acc).tables_found
        = acc.tables_found
          + ((mupdfPagesList use_ocr preserve_tables handle_multi_column idx ps).map
              (fun pd => pd.tables.length)).sum := by
  intro ps
  induction ps with
  | nil => intro idx acc; simp [mupdfLoop, mupdfPagesList]
  | cons pg ps ih =>
    intro idx acc
    simp [mupdfLoop, mupdfPagesList, ih]
    omega

/-- Every page record of the pdfplumber list keeps only non-empty tables. -/
theorem plumberPagesList_tables_filter (use_ocr preserve_tables : Bool) :
    ∀ (ps : List PdfPlumberPage) (n : Nat) (pd : PageData),
      pd ∈ plumberPagesList use_ocr preserve_tables n ps →
        pd.tables.filter (fun t => !t.isEmpty) = pd.tables := by
  intro ps
  induction ps with
  | nil => intro n pd h; simp [plumberPagesList] at h
  | cons pg ps ih =>
    intro n pd h
    rw [plumberPagesList] at h
    rcases List.mem_cons.mp h with h1 | h2
    · rw [h1]; exact plumberPageData_tables_filter use_ocr preserve_tables n pg
    · exact ih (n + 1) pd h2

/-! ## Helper lemmas: PowerPoint shape fold -/

theorem shapeStep_ocrUsed (cfg : PptConfig) (use_ocr : Bool) (acc : ShapeAcc) (sh : Shape) :
    (shapeStep cfg use_ocr acc sh).ocrUsed
      = (acc.ocrUsed || (use_ocr && picProducesOcrText cfg sh)) := by
  cases sh with
  | textFrame ps => simp [shapeStep, picProducesOcrText]; split_ifs <;> simp
  | table ta =>
    simp only [shapeStep, picProducesOcrText]
    cases extract_table_from_shape cfg ta with
    | none => simp
    | some td =>
      simp
      split_ifs <;> simp
  | picture ia oo =>
    simp only [shapeStep, picProducesOcrText]
    cases hb : extract_image_from_shape ia with
    | none =>
      cases use_ocr <;> cases cfg.ocrAvailable <;> simp [hb]
    | some b =>
      cases use_ocr with
      | false => simp [hb]
      | true =>
        cases hav : cfg.ocrAvailable with
        | false =>
          have hocr : perform_ocr_on_image cfg oo = "" := by
            unfold perform_ocr_on_image
            rw [hav]
            rfl
          simp [hb, hav, hocr]
          intro _ h2
          exact absurd h2 (by decide)
        | true =>
          simp only [hav, Bool.and_self, if_pos, hb, Bool.true_and]
          split_ifs with h1 h2 <;> simp_all
  | group shapes => simp [shapeStep, picProducesOcrText]; split_ifs <;> simp
  | other => simp [shapeStep, picProducesOcrText]

theorem foldl_shapeStep_ocrUsed (cfg : PptConfig) (use_ocr : Bool) :
    ∀ (shapes : List Shape) (acc : ShapeAcc),
      (shapes.foldl (shapeStep cfg use_ocr) acc).ocrUsed
        = (acc.ocrUsed || (use_ocr && shapes.any (picProducesOcrText cfg))) := by
  intro shapes
  induction shapes with
  | nil => intro acc; simp
  | cons sh rest ih =>
    intro acc
    rw [List.foldl_cons, ih, shapeStep_ocrUsed]
    cases acc.ocrUsed <;> cases use_ocr <;> simp [List.any_cons, Bool.or_assoc]

/-- With OCR disabled, a picture shape leaves the accumulator untouched. -/
theorem shapeStep_picture_no_ocr (cfg : PptConfig) (acc : ShapeAcc)
    (sh : Shape) (hpic : sh.isPicture = true) :
    shapeStep cfg false acc sh = acc := by
  cases sh <;> simp_all [Shape.isPicture, shapeStep]

theorem foldl_shapeStep_pictures_no_ocr (cfg : PptConfig) :
    ∀ (shapes : List Shape) (acc : ShapeAcc),
      (∀ sh ∈ shapes, sh.isPicture = true) →
        shapes.foldl (shapeStep cfg false) acc = acc := by
  intro shapes
  induction shapes with
  | nil => intro acc _; rfl
  | cons sh rest ih =>
    intro acc hall
    rw [List.foldl_cons,
      shapeStep_picture_no_ocr cfg acc sh (hall sh (List.mem_cons_self sh rest))]
    exact ih acc (fun s hs => hall s (List.mem_cons_of_mem sh hs))

/-- Every table appended by a shape step is non-empty, so the accumulated
table list keeps only non-empty tables. -/
theorem shapeStep_tables_nonempty (cfg : PptConfig) (use_ocr : Bool)
    (acc : ShapeAcc) (sh : Shape)
    (hacc : ∀ td ∈ acc.tables, td ≠ []) :
    ∀ td ∈ (shapeStep cfg use_ocr acc sh).tables, td ≠ [] := by
  cases sh with
  | textFrame ps =>
    simp only [shapeStep]
    split_ifs <;> simpa using hacc
  | table ta =>
    simp only [shapeStep]
    cases extract_table_from_shape cfg ta with
    | none => simpa using hacc
    | some td0 =>
      simp only []
      split_ifs with h
      · intro td htd
        simp only [List.mem_append, List.mem_singleton] at htd
        rcases htd with h1 | h2
        · exact hacc td h1
        · rw [h2]
          intro hnil
          rw [hnil] at h
          simp at h
      · simpa using hacc
  | picture ia oo =>
    simp only [shapeStep]
    cases hb : extract_image_from_shape ia with
    | none => split_ifs <;> simpa using hacc
    | some b =>
      dsimp only
      split_ifs <;> simpa using hacc
  | group shapes =>
    simp only [shapeStep]
    split_ifs <;> simpa using hacc
  | other => simpa [shapeStep] using hacc

theorem foldl_shapeStep_tables_nonempty (cfg : PptConfig) (use_ocr : Bool) :
    ∀ (shapes : List Shape) (acc : ShapeAcc),
      (∀ td ∈ acc.tables, td ≠ []) →
        ∀ td ∈ (shapes.foldl (shapeStep cfg use_ocr) acc).tables, td ≠ [] := by
  intro shapes
  induction shapes with
  | nil => intro acc hacc; simpa using hacc
  | cons sh rest ih =>
    intro acc hacc
    rw [List.foldl_cons]
    exact ih _ (shapeStep_tables_nonempty cfg use_ocr acc sh hacc)

/-! ## Helper lemmas: slide records and the slide loop -/

theorem extract_slide_content_slide_number (cfg : PptConfig) (slide : Slide)
    (n : Nat) (use_ocr use_llm_formatting : Bool) :
    (extract_slide_content cfg slide n use_ocr use_llm_formatting).slide_number = n := rfl

theorem extract_slide_content_method (cfg : PptConfig) (slide : Slide)
    (n : Nat) (use_ocr use_llm_formatting : Bool) :
    (extract_slide_content cfg slide n use_ocr use_llm_formatting).extraction_method
      = "native" := rfl

theorem extract_slide_content_ocr_used (cfg : PptConfig) (slide : Slide)
    (n : Nat) (use_ocr use_llm_formatting : Bool) :
    (extract_slide_content cfg slide n use_ocr use_llm_formatting).ocr_used
      = (use_ocr && slide.shapes.any (picProducesOcrText cfg)) := by
  unfold extract_slide_content
  dsimp only
  rw [foldl_shapeStep_ocrUsed]
  simp

theorem extract_slide_content_tables_nonempty (cfg : PptConfig) (slide : Slide)
    (n : Nat) (use_ocr use_llm_formatting : Bool) :
    ∀ td ∈ (extract_slide_content cfg slide n use_ocr use_llm_formatting).tables,
      td ≠ [] := by
  unfold extract_slide_content
  exact foldl_shapeStep_tables_nonempty cfg use_ocr slide.shapes _ (by simp)

theorem pptxLoop_slides (cfg : PptConfig) (doc : PptxDocument)
    (use_ocr use_llm_formatting : Bool) :
    ∀ (nums : List Nat) (acc : PptxResult),
      (pptxLoop cfg doc use_ocr use_llm_formatting nums acc).slides
        = acc.slides ++ pptxSlidesList cfg doc use_ocr use_llm_formatting nums := by
  intro nums
  induction nums with
  | nil => intro acc; simp [pptxLoop, pptxSlidesList]
  | cons sn rest ih =>
    intro acc
    simp [pptxLoop, pptxSlidesList, ih]

theorem pptxLoop_errors (cfg : PptConfig) (doc : PptxDocument)
    (use_ocr use_llm_formatting : Bool) :
    ∀ (nums : List Nat) (acc : PptxResult),
      (pptxLoop cfg doc use_ocr use_llm_formatting nums acc).errors = acc.errors := by
  intro nums
  induction nums with
  | nil => intro acc; simp [pptxLoop]
  | cons sn rest ih => intro acc; simp [pptxLoop, ih]

theorem pptxLoop_tables_found (cfg : PptConfig) (doc : PptxDocument)
    (use_ocr use_llm_formatting : Bool) :
    ∀ (nums : List Nat) (acc : PptxResult),
      (pptxLoop cfg doc use_ocr use_llm_formatting nums acc).tables_found
        = acc.tables_found
          + ((pptxSlidesList cfg doc use_ocr use_llm_formatting nums).map
              (fun sd => sd.tables.length)).sum := by
  intro nums
  induction nums with
  | nil => intro acc; simp [pptxLoop, pptxSlidesList]
  | cons sn rest ih =>
    intro acc
    simp [pptxLoop, pptxSlidesList, ih]
    omega

theorem pptxSlidesList_map_number (cfg : PptConfig) (doc : PptxDocument)
    (use_ocr use_llm_formatting : Bool) (nums : List Nat) :
    (pptxSlidesList cfg doc use_ocr use_llm_formatting nums).map (fun sd => sd.slide_number)
      = nums := by
  unfold pptxSlidesList
  induction nums with
  | nil => rfl
  | cons sn rest ih =>
    simp only [List.map_cons]
    rw [ih]
    simp [extract_slide_content_slide_number]

/-! ## Helper lemmas: table formatter widths -/

theorem updateWidths_getD :
    ∀ (row : List Cell) (ws : List Nat) (j : Nat),
      (updateWidths ws row).getD j 0
        = Nat.max (ws.getD j 0)
            (((row.get? j).map (fun c => (cellStr c).length)).getD 0) := by
  intro row
  induction row with
  | nil => intro ws j; simp [updateWidths]
  | cons c cs ih =>
    intro ws j
    cases ws with
    | nil =>
      cases j with
      | zero => simp [updateWidths]
      | succ k =>
        simp only [updateWidths, List.getD_cons_succ, List.get?_cons_succ]
        rw [ih]
        all_goals simp
    | cons w ws' =>
      cases j with
      | zero => simp [updateWidths]
      | succ k =>
        simp only [updateWidths, List.getD_cons_succ, List.get?_cons_succ]
        rw [ih]

theorem foldl_updateWidths_getD :
    ∀ (t : List (List Cell)) (ws : List Nat) (j : Nat),
      (t.foldl updateWidths ws).getD j 0
        = t.foldl
            (fun m row =>
              Nat.max m (((row.get? j).map (fun c => (cellStr c).length)).getD 0))
            (ws.getD j 0) := by
  intro t
  induction t with
  | nil => intro ws j; simp
  | cons r t ih =>
    intro ws j
    rw [List.foldl_cons, List.foldl_cons, ih, updateWidths_getD]

/-- The iteratively built `max_widths` list computes, at every column
index, the maximum `len(str(cell))` over the entries present in that
column. -/
theorem maxWidths_getD (t : List (List Cell)) (j : Nat) :
    (maxWidths t).getD j 0 = colMax t j := by
  unfold maxWidths colMax
  simpa using foldl_updateWidths_getD t [] j

theorem formatRowCells_eq (t : List (List Cell)) :
    ∀ (row : List Cell) (idx : Nat),
      formatRowCells (maxWidths t) idx row
        = (List.enumFrom idx row).map (fun p => renderCell (colMax t p.1) p.2) := by
  intro row
  induction row with
  | nil => intro idx; simp [formatRowCells]
  | cons c cs ih =>
    intro idx
    simp only [formatRowCells, List.enumFrom, List.map_cons, maxWidths_getD, ih]

theorem formatRow_eq (t : List (List Cell)) (row : List Cell) :
    formatRow (maxWidths t) row = amendedFormatRow t row := by
  unfold formatRow amendedFormatRow
  congr 1
  rw [formatRowCells_eq t row 0]
  simp [List.enum]

theorem tableLines_eq (t : List (List Cell)) :
    tableLines t = amendedTableLines t := by
  unfold tableLines amendedTableLines
  split_ifs with h
  · rfl
  · have hfun : formatRow (maxWidths t) = amendedFormatRow t :=
      funext (fun row => formatRow_eq t row)
    rw [hfun]

theorem formatTablesLines_eq :
    ∀ (ts : List (List (List Cell))) (i : Nat),
      formatTablesLines i ts = amendedTablesLines i ts := by
  intro ts
  induction ts with
  | nil => intro i; rfl
  | cons t ts ih =>
    intro i
    simp [formatTablesLines, amendedTablesLines, tableLines_eq, ih]

/-! ## Helper lemmas: sheet-name sanitization -/

theorem foldl_replaceChar (cs : List Char) :
    ∀ s : String,
      cs.foldl (fun acc c => replaceChar c acc) s
        = String.mk (s.data.map (fun c => if c ∈ cs then '_' else c)) := by
  induction cs with
  | nil =>
    intro s
    cases s with
    | mk data => simp [replaceChar]
  | cons c cs ih =>
    intro s
    rw [List.foldl_cons, ih]
    unfold replaceChar
    dsimp only
    rw [List.map_map]
    have hfun :
        ((fun x => if x ∈ cs then '_' else x) ∘ (fun x => if x = c then '_' else x))
          = fun x => if x ∈ c :: cs then '_' else x := by
      funext x
      by_cases hx : x = c
      · subst hx; simp [ite_self]
      · simp [Function.comp, hx, List.mem_cons]
    rw [hfun]

/-! ## Claim theorems -/

/-- C1: for every PDF extraction call on an existing file, the PyMuPDF
pass is run if and only if the pdfplumber pass produced an empty page
list or every page record's text is empty after stripping (the
`pdfFallbackCondition`); when the fallback runs the returned result is
entirely the PyMuPDF pass's result, and otherwise entirely the
pdfplumber pass's result — the two being distinguishable by their
`extraction_method` tags. -/
theorem pdf_secondary_backend_fallback (doc : PdfDocument)
    (use_ocr preserve_tables handle_multi_column : Bool) :
    (pdfFallbackCondition
          (extract_with_pdfplumber doc use_ocr preserve_tables handle_multi_column) = true →
        extract_text_from_pdf doc use_ocr preserve_tables handle_multi_column
          = extract_with_pymupdf doc use_ocr preserve_tables handle_multi_column)
      ∧ (pdfFallbackCondition
            (extract_with_pdfplumber doc use_ocr preserve_tables handle_multi_column) = false →
          extract_text_from_pdf doc use_ocr preserve_tables handle_multi_column
            = extract_with_pdfplumber doc use_ocr preserve_tables handle_multi_column)
      ∧ (extract_with_pdfplumber doc use_ocr preserve_tables
            handle_multi_column).extraction_method = "pdfplumber"
      ∧ (extract_with_pymupdf doc use_ocr preserve_tables
            handle_multi_column).extraction_method = "pymupdf" := by
  refine ⟨?_, ?_, ?_, ?_⟩
  · intro h
    simp [extract_text_from_pdf, h]
  · intro h
    simp [extract_text_from_pdf, h]
  · unfold extract_with_pdfplumber
    rw [plumberLoop_extraction_method]
  · unfold extract_with_pymupdf
    rw [mupdfLoop_extraction_method]

/-- Witness for C1: on a concrete scanned document the fallback condition
holds and the call returns the PyMuPDF pass's result. -/
theorem pdf_secondary_backend_fallback_witness :
    pdfFallbackCondition (extract_with_pdfplumber fallbackDoc false true true) = true
      ∧ extract_text_from_pdf fallbackDoc false true true
          = extract_with_pymupdf fallbackDoc false true true :=
  ⟨by decide, (pdf_secondary_backend_fallback fallbackDoc false true true).1 (by decide)⟩

/-- C10: every backend pass that completes yields exactly `total_pages`
page records, `total_pages` equals the page count of the opened document,
and the record page numbers are `1, 2, ..., total_pages` in order (no
page skipped or duplicated). -/
theorem backend_pass_page_numbering (doc : PdfDocument)
    (use_ocr preserve_tables handle_multi_column : Bool) :
    ((extract_with_pdfplumber doc use_ocr preserve_tables handle_multi_column).pages.map
          (fun pd => pd.page_number)
        = List.range' 1
            (extract_with_pdfplumber doc use_ocr preserve_tables
              handle_multi_column).total_pages)
      ∧ (extract_with_pdfplumber doc use_ocr preserve_tables
            handle_multi_column).total_pages = doc.plumberPages.length
      ∧ (extract_with_pdfplumber doc use_ocr preserve_tables
            handle_multi_column).pages.length = doc.plumberPages.length
      ∧ ((extract_with_pymupdf doc use_ocr preserve_tables handle_multi_column).pages.map
            (fun pd => pd.page_number)
          = List.range' 1
              (extract_with_pymupdf doc use_ocr preserve_tables
                handle_multi_column).total_pages)
      ∧ (extract_with_pymupdf doc use_ocr preserve_tables
            handle_multi_column).total_pages = doc.mupdfPages.length
      ∧ (extract_with_pymupdf doc use_ocr preserve_tables
            handle_multi_column).pages.length = doc.mupdfPages.length := by
  have hp : (extract_with_pdfplumber doc use_ocr preserve_tables
      handle_multi_column).pages
        = plumberPagesList use_ocr preserve_tables 1 doc.plumberPages := by
    unfold extract_with_pdfplumber
    rw [plumberLoop_pages]
    rfl
  have hm : (extract_with_pymupdf doc use_ocr preserve_tables
      handle_multi_column).pages
        = mupdfPagesList use_ocr preserve_tables handle_multi_column 0 doc.mupdfPages := by
    unfold extract_with_pymupdf
    rw [mupdfLoop_pages]
    rfl
  have htp : (extract_with_pdfplumber doc use_ocr preserve_tables
      handle_multi_column).total_pages = doc.plumberPages.length := by
    unfold extract_with_pdfplumber
    rw [plumberLoop_total_pages]
  have htm : (extract_with_pymupdf doc use_ocr preserve_tables
      handle_multi_column).total_pages = doc.mupdfPages.length := by
    unfold extract_with_pymupdf
    rw [mupdfLoop_total_pages]
  refine ⟨?_, htp, ?_, ?_, htm, ?_⟩
  · rw [hp, htp, plumberPagesList_map_page_number]
  · rw [hp, plumberPagesList_length]
  · rw [hm, htm]
    have := mupdfPagesList_map_page_number use_ocr preserve_tables handle_multi_column
      doc.mupdfPages 0
    simpa using this
  · rw [hm, mupdfPagesList_length]

/-- C8: a PDF page whose native extraction yields non-whitespace text is
recorded with method `"native"`, the natively extracted text, and
`ocr_used = false`, in both backend passes and regardless of the OCR
flag. -/
theorem native_text_page_record :
    (∀ (doc : PdfDocument) (use_ocr preserve_tables handle_multi_column : Bool) (i : Nat),
        i < doc.plumberPages.length →
        plumberHasText (doc.plumberPages.getD i defaultPlumberPage) = true →
          ((extract_with_pdfplumber doc use_ocr preserve_tables handle_multi_column).pages.getD
              i defaultPageData).extraction_method = "native"
            ∧ ((extract_with_pdfplumber doc use_ocr preserve_tables
                  handle_multi_column).pages.getD i defaultPageData).text
                = (doc.plumberPages.getD i defaultPlumberPage).nativeText.getD ""
            ∧ ((extract_with_pdfplumber doc use_ocr preserve_tables
                  handle_multi_column).pages.getD i defaultPageData).ocr_used = false)
      ∧ (∀ (doc : PdfDocument) (use_ocr preserve_tables handle_multi_column : Bool) (i : Nat),
          i < doc.mupdfPages.length →
          (pyStrip (mupdfPageText handle_multi_column
              (doc.mupdfPages.getD i defaultMupdfPage))).isEmpty = false →
            ((extract_with_pymupdf doc use_ocr preserve_tables handle_multi_column).pages.getD
                i defaultPageData).extraction_method = "native"
              ∧ ((extract_with_pymupdf doc use_ocr preserve_tables
                    handle_multi_column).pages.getD i defaultPageData).text
                  = mupdfPageText handle_multi_column (doc.mupdfPages.getD i defaultMupdfPage)
              ∧ ((extract_with_pymupdf doc use_ocr preserve_tables
                    handle_multi_column).pages.getD i defaultPageData).ocr_used = false) := by
  constructor
  · intro doc use_ocr preserve_tables handle_multi_column i hi htext
    have hp : (extract_with_pdfplumber doc use_ocr preserve_tables
        handle_multi_column).pages
          = plumberPagesList use_ocr preserve_tables 1 doc.plumberPages := by
      unfold extract_with_pdfplumber
      rw [plumberLoop_pages]
      rfl
    rw [hp, plumberPagesList_getD use_ocr preserve_tables doc.plumberPages 1 i hi]
    have h := plumberPageData_of_hasText use_ocr preserve_tables (1 + i)
      (doc.plumberPages.getD i defaultPlumberPage) htext
    exact ⟨h.2.1, h.1, h.2.2.1⟩
  · intro doc use_ocr preserve_tables handle_multi_column i hi htext
    have hm : (extract_with_pymupdf doc use_ocr preserve_tables
        handle_multi_column).pages
          = mupdfPagesList use_ocr preserve_tables handle_multi_column 0 doc.mupdfPages := by
      unfold extract_with_pymupdf
      rw [mupdfLoop_pages]
      rfl
    rw [hm, mupdfPagesList_getD use_ocr preserve_tables handle_multi_column
      defaultMupdfPage doc.mupdfPages 0 i hi]
    have h := mupdfPageData_of_text use_ocr preserve_tables handle_multi_column (0 + i)
      (doc.mupdfPages.getD i defaultMupdfPage) htext
    exact ⟨h.2.1, h.1, h.2.2⟩

/-- Witness for C8: a concrete document with native text on its single
page, processed with OCR enabled, keeps the native record in both
passes. -/
theorem native_text_page_record_witness :
    (((extract_with_pdfplumber nativeTextDoc true true true).pages.getD
          0 defaultPageData).extraction_method = "native"
        ∧ ((extract_with_pdfplumber nativeTextDoc true true true).pages.getD
            0 defaultPageData).text
          = (nativeTextDoc.plumberPages.getD 0 defaultPlumberPage).nativeText.getD ""
        ∧ ((extract_with_pdfplumber nativeTextDoc true true true).pages.getD
            0 defaultPageData).ocr_used = false)
      ∧ (((extract_with_pymupdf nativeTextDoc true true true).pages.getD
            0 defaultPageData).extraction_method = "native"
          ∧ ((extract_with_pymupdf nativeTextDoc true true true).pages.getD
              0 defaultPageData).text
            = mupdfPageText true (nativeTextDoc.mupdfPages.getD 0 defaultMupdfPage)
          ∧ ((extract_with_pymupdf nativeTextDoc true true true).pages.getD
              0 defaultPageData).ocr_used = false) :=
  ⟨native_text_page_record.1 nativeTextDoc true true true 0 (by decide) (by decide),
   native_text_page_record.2 nativeTextDoc true true true 0 (by decide) (by decide)⟩

/-- C2 counterexample: a slide containing only an image, processed with
OCR enabled, gets `ocr_used = true` but its `extraction_method` is never
set to `"ocr"` — the PowerPoint pipeline creates the field as
`"native"` and never changes it, refuting the claim as stated. -/
theorem ppt_ocr_method_counterexample :
    (extract_slide_content cfgAll onlyImageSlide 1 true false).ocr_used = true
      ∧ ¬ (extract_slide_content cfgAll onlyImageSlide 1 true false).extraction_method
            = "ocr" := by
  constructor
  · decide
  · decide

/-- C2 as amended: for a pdfplumber page with no native text, OCR enabled
and a successful OCR call set `ocr_used` and method `"ocr"`, while with
OCR disabled the text stays empty and no error entry is produced; for a
PowerPoint slide the `extraction_method` is always `"native"`, `ocr_used`
becomes true exactly when some picture shape yields non-empty OCR text,
a slide of only images with OCR (and LLM formatting) disabled keeps the
empty text, and the presentation pipeline never appends an error entry
for absent text. -/
theorem only_image_ocr_behavior :
    (∀ (preserve_tables : Bool) (n : Nat) (pg : PdfPlumberPage) (t : String),
        plumberHasText pg = false → pg.ocrResult = Except.ok t →
          (plumberPageData true preserve_tables n pg).1.ocr_used = true
            ∧ (plumberPageData true preserve_tables n pg).1.extraction_method = "ocr")
      ∧ (∀ (preserve_tables : Bool) (n : Nat) (pg : PdfPlumberPage),
          plumberHasText pg = false →
            (plumberPageData false preserve_tables n pg).1.text = ""
              ∧ (plumberPageData false preserve_tables n pg).2 = [])
      ∧ (∀ (cfg : PptConfig) (slide : Slide) (n : Nat) (use_ocr use_llm_formatting : Bool),
          (extract_slide_content cfg slide n use_ocr use_llm_formatting).extraction_method
            = "native")
      ∧ (∀ (cfg : PptConfig) (slide : Slide) (n : Nat) (use_llm_formatting : Bool),
          (extract_slide_content cfg slide n true use_llm_formatting).ocr_used
            = slide.shapes.any (picProducesOcrText cfg))
      ∧ (∀ (cfg : PptConfig) (slide : Slide) (n : Nat),
          (∀ sh ∈ slide.shapes, sh.isPicture = true) →
            (extract_slide_content cfg slide n false false).text = "")
      ∧ (∀ (cfg : PptConfig) (doc : PptxDocument) (slide_numbers : Option (List Nat))
            (use_ocr use_llm_formatting : Bool),
          (extract_text_from_pptx cfg doc slide_numbers use_ocr
              use_llm_formatting).errors = []) := by
  refine ⟨?_, ?_, ?_, ?_, ?_, ?_⟩
  · intro preserve_tables n pg t h hocr
    have h1 := plumberPageData_ocr_ok preserve_tables n pg t h hocr
    exact ⟨h1.2.2.1, h1.2.1⟩
  · intro preserve_tables n pg h
    have h1 := plumberPageData_no_ocr preserve_tables n pg h
    exact ⟨h1.1, h1.2.2⟩
  · intro cfg slide n use_ocr use_llm_formatting
    exact extract_slide_content_method cfg slide n use_ocr use_llm_formatting
  · intro cfg slide n use_llm_formatting
    rw [extract_slide_content_ocr_used]
    simp
  · intro cfg slide n hall
    unfold extract_slide_content
    dsimp only
    rw [foldl_shapeStep_pictures_no_ocr cfg slide.shapes _ hall]
    simp [format_text_parts]
  · intro cfg doc slide_numbers use_ocr use_llm_formatting
    unfold extract_text_from_pptx
    dsimp only
    rw [pptxLoop_errors]

/-- Witness for C2 as amended, instantiating the hypothesis-bearing parts
on concrete inputs. -/
theorem only_image_ocr_behavior_witness :
    ((plumberPageData true true 1 pdfOcrPage).1.ocr_used = true
        ∧ (plumberPageData true true 1 pdfOcrPage).1.extraction_method = "ocr")
      ∧ ((plumberPageData false true 1 pdfOcrPage).1.text = ""
          ∧ (plumberPageData false true 1 pdfOcrPage).2 = [])
      ∧ (extract_slide_content cfgAll onlyImageSlide 1 false false).text = "" :=
  ⟨only_image_ocr_behavior.1 true 1 pdfOcrPage "ocr text" (by decide) rfl,
   only_image_ocr_behavior.2.1 true 1 pdfOcrPage (by decide),
   only_image_ocr_behavior.2.2.2.2.1 cfgAll onlyImageSlide 1 (by decide)⟩

/-- C3 (code bug): when the chat-completion call on a slide raises, the
slide's text equals the pre-formatting text (here, the text of the same
slide extracted without LLM formatting) and no exception escapes, but
`llm_formatted` is set to `true` rather than remaining `false`: the
exception is swallowed inside `_format_text_with_llm`, so the guarded
assignment in `_extract_slide_content` always runs and its `except`
handler is dead code. -/
theorem llm_failure_flag_eval :
    (extract_slide_content cfgAll llmFailSlide 1 true true).text
        = (extract_slide_content cfgAll llmFailSlide 1 true false).text
      ∧ (extract_slide_content cfgAll llmFailSlide 1 true true).text = "Hello world"
      ∧ (extract_slide_content cfgAll llmFailSlide 1 true true).llm_formatted = true := by
  refine ⟨?_, ?_, ?_⟩ <;> decide

/-- C9 counterexample: on a page where the OCR engine raises, the PDF-side
OCR invocation `_perform_ocr_on_page` does not return recognized text or
an empty string — it propagates the exception (no handler exists in that
function), refuting the uniform-contract claim. -/
theorem pdf_ocr_raises_counterexample :
    (perform_ocr_on_page failingOcrPage).isOk = false := by
  decide

/-- C9 as amended: the PowerPoint-side OCR invocation returns the
recognized text, or the empty string when the engine fails; the PDF-side
invocation instead propagates its exception to the per-page handler of
`_extract_with_pdfplumber`, which records an error entry and leaves the
page text empty; in either case an OCR failure never aborts the run —
every page still yields a record. -/
theorem ocr_invocation_contract :
    (∀ (cfg : PptConfig) (e : String),
        perform_ocr_on_image cfg (Except.error e) = "")
      ∧ (∀ (cfg : PptConfig) (t : String), cfg.ocrAvailable = true →
          perform_ocr_on_image cfg (Except.ok t) = t)
      ∧ (∀ (pg : PdfPlumberPage) (preserve_tables : Bool) (n : Nat) (e : String),
          plumberHasText pg = false → pg.ocrResult = Except.error e →
            (plumberPageData true preserve_tables n pg).2
                = ["OCR failed on page " ++ toString n ++ ": " ++ e]
              ∧ (plumberPageData true preserve_tables n pg).1.text = "")
      ∧ (∀ (doc : PdfDocument) (use_ocr preserve_tables handle_multi_column : Bool),
          (extract_with_pdfplumber doc use_ocr preserve_tables
              handle_multi_column).pages.length = doc.plumberPages.length
            ∧ (extract_with_pymupdf doc use_ocr preserve_tables
                handle_multi_column).pages.length = doc.mupdfPages.length) := by
  refine ⟨?_, ?_, ?_, ?_⟩
  · intro cfg e
    unfold perform_ocr_on_image
    split_ifs <;> rfl
  · intro cfg t hav
    simp [perform_ocr_on_image, hav]
  · intro pg preserve_tables n e h hocr
    have h1 := plumberPageData_ocr_err preserve_tables n pg e h hocr
    exact ⟨h1.2.2.2, h1.1⟩
  · intro doc use_ocr preserve_tables handle_multi_column
    constructor
    · unfold extract_with_pdfplumber
      rw [plumberLoop_pages]
      simp [plumberPagesList_length]
    · unfold extract_with_pymupdf
      rw [mupdfLoop_pages]
      simp [mupdfPagesList_length]

/-- Witness for C9 as amended: concrete failing OCR on the PDF side is
recorded as an error entry with empty page text; the document still
yields its page record. -/
theorem ocr_invocation_contract_witness :
    perform_ocr_on_image cfgAll (Except.error "engine crash") = ""
      ∧ perform_ocr_on_image cfgAll (Except.ok "read me") = "read me"
      ∧ ((plumberPageData true true 4 failingOcrPage).2
            = ["OCR failed on page " ++ toString 4 ++ ": " ++ "tesseract failure"]
          ∧ (plumberPageData true true 4 failingOcrPage).1.text = "")
      ∧ ((extract_with_pdfplumber fallbackDoc true true true).pages.length
            = fallbackDoc.plumberPages.length
          ∧ (extract_with_pymupdf fallbackDoc true true true).pages.length
            = fallbackDoc.mupdfPages.length) :=
  ⟨ocr_invocation_contract.1 cfgAll "engine crash",
   ocr_invocation_contract.2.1 cfgAll "read me" (by decide),
   ocr_invocation_contract.2.2.1 failingOcrPage true 4 "tesseract failure"
     (by decide) rfl,
   ocr_invocation_contract.2.2.2 fallbackDoc true true true⟩

/-! ## Helper lemmas: sums of recorded table counts -/

theorem filter_nonempty_eq_self {α : Type} (L : List (List α)) (h : ∀ t ∈ L, t ≠ []) :
    L.filter (fun t => !t.isEmpty) = L := by
  apply List.filter_eq_self.mpr
  intro t ht
  cases t with
  | nil => exact absurd rfl (h [] ht)
  | cons a as => rfl

theorem map_filter_len_eq (L : List PageData)
    (hL : ∀ pd ∈ L, pd.tables.filter (fun t => !t.isEmpty) = pd.tables) :
    L.map (fun pd => (pd.tables.filter (fun t => !t.isEmpty)).length)
      = L.map (fun pd => pd.tables.length) := by
  induction L with
  | nil => rfl
  | cons pd L ih =>
    simp only [List.map_cons]
    rw [hL pd (List.mem_cons_self pd L),
      ih (fun q hq => hL q (List.mem_cons_of_mem pd hq))]

theorem slide_map_filter_len_eq (L : List SlideData)
    (hL : ∀ sd ∈ L, sd.tables.filter (fun t => !t.isEmpty) = sd.tables) :
    L.map (fun sd => (sd.tables.filter (fun t => !t.isEmpty)).length)
      = L.map (fun sd => sd.tables.length) := by
  induction L with
  | nil => rfl
  | cons sd L ih =>
    simp only [List.map_cons]
    rw [hL sd (List.mem_cons_self sd L),
      ih (fun q hq => hL q (List.mem_cons_of_mem sd hq))]

theorem mupdfPagesList_tables (use_ocr preserve_tables handle_multi_column : Bool) :
    ∀ (ps : List PyMuPdfPage) (idx : Nat) (pd : PageData),
      pd ∈ mupdfPagesList use_ocr preserve_tables handle_multi_column idx ps →
        pd.tables = [] := by
  intro ps
  induction ps with
  | nil => intro idx pd hmem; simp [mupdfPagesList] at hmem
  | cons pg ps ih =>
    intro idx pd hmem
    rw [mupdfPagesList] at hmem
    rcases List.mem_cons.mp hmem with h1 | h2
    · rw [h1]
      exact mupdfPageData_tables use_ocr preserve_tables handle_multi_column idx pg
    · exact ih (idx + 1) pd h2

theorem pptxSlidesList_tables_filter (cfg : PptConfig) (doc : PptxDocument)
    (use_ocr use_llm_formatting : Bool) (nums : List Nat) (sd : SlideData)
    (hmem : sd ∈ pptxSlidesList cfg doc use_ocr use_llm_formatting nums) :
    sd.tables.filter (fun t => !t.isEmpty) = sd.tables := by
  unfold pptxSlidesList at hmem
  rcases List.mem_map.mp hmem with ⟨sn, _, heq⟩
  rw [← heq]
  exact filter_nonempty_eq_self _
    (extract_slide_content_tables_nonempty cfg _ sn use_ocr use_llm_formatting)

theorem plumber_tables_sum (doc : PdfDocument)
    (use_ocr preserve_tables handle_multi_column : Bool) :
    (extract_with_pdfplumber doc use_ocr preserve_tables handle_multi_column).tables_found
      = ((extract_with_pdfplumber doc use_ocr preserve_tables
            handle_multi_column).pages.map
          (fun pd => (pd.tables.filter (fun t => !t.isEmpty)).length)).sum := by
  unfold extract_with_pdfplumber
  rw [plumberLoop_tables_found, plumberLoop_pages]
  simp only [List.nil_append]
  rw [map_filter_len_eq _
    (fun pd hpd =>
      plumberPagesList_tables_filter use_ocr preserve_tables doc.plumberPages 1 pd hpd)]
  simp

theorem mupdf_tables_sum (doc : PdfDocument)
    (use_ocr preserve_tables handle_multi_column : Bool) :
    (extract_with_pymupdf doc use_ocr preserve_tables handle_multi_column).tables_found
      = ((extract_with_pymupdf doc use_ocr preserve_tables
            handle_multi_column).pages.map
          (fun pd => (pd.tables.filter (fun t => !t.isEmpty)).length)).sum := by
  unfold extract_with_pymupdf
  rw [mupdfLoop_tables_found, mupdfLoop_pages]
  simp only [List.nil_append]
  rw [map_filter_len_eq _
    (fun pd hpd => by
      rw [mupdfPagesList_tables use_ocr preserve_tables handle_multi_column
        doc.mupdfPages 0 pd hpd]
      rfl)]
  simp

theorem pptx_tables_sum (cfg : PptConfig) (doc : PptxDocument)
    (slide_numbers : Option (List Nat)) (use_ocr use_llm_formatting : Bool) :
    (extract_text_from_pptx cfg doc slide_numbers use_ocr use_llm_formatting).tables_found
      = ((extract_text_from_pptx cfg doc slide_numbers use_ocr
            use_llm_formatting).slides.map
          (fun sd => (sd.tables.filter (fun t => !t.isEmpty)).length)).sum := by
  unfold extract_text_from_pptx
  dsimp only
  rw [pptxLoop_tables_found, pptxLoop_slides]
  simp only [List.nil_append]
  rw [slide_map_filter_len_eq _
    (fun sd hsd =>
      pptxSlidesList_tables_filter cfg doc use_ocr use_llm_formatting _ sd hsd)]
  simp

/-- C6: in both pipelines the aggregate `tables_found` equals the sum over
all processed units of the number of non-empty tables recorded for that
unit (every recorded table is non-empty, so this is the length of the
unit's table list), and each loop step preserves this equality, so it
holds after every unit is processed. -/
theorem tables_found_invariant :
    (∀ (doc : PdfDocument) (use_ocr preserve_tables handle_multi_column : Bool),
        (extract_text_from_pdf doc use_ocr preserve_tables handle_multi_column).tables_found
          = ((extract_text_from_pdf doc use_ocr preserve_tables
                handle_multi_column).pages.map
              (fun pd => (pd.tables.filter (fun t => !t.isEmpty)).length)).sum)
      ∧ (∀ (cfg : PptConfig) (doc : PptxDocument) (slide_numbers : Option (List Nat))
            (use_ocr use_llm_formatting : Bool),
          (extract_text_from_pptx cfg doc slide_numbers use_ocr
              use_llm_formatting).tables_found
            = ((extract_text_from_pptx cfg doc slide_numbers use_ocr
                  use_llm_formatting).slides.map
                (fun sd => (sd.tables.filter (fun t => !t.isEmpty)).length)).sum)
      ∧ (∀ (use_ocr preserve_tables : Bool) (ps : List PdfPlumberPage) (n : Nat)
            (acc : PdfResult),
          acc.tables_found
              = (acc.pages.map
                  (fun pd => (pd.tables.filter (fun t => !t.isEmpty)).length)).sum →
            (plumberLoop use_ocr preserve_tables ps n acc).tables_found
              = ((plumberLoop use_ocr preserve_tables ps n acc).pages.map
                  (fun pd => (pd.tables.filter (fun t => !t.isEmpty)).length)).sum)
      ∧ (∀ (use_ocr preserve_tables handle_multi_column : Bool)
            (ps : List PyMuPdfPage) (idx : Nat) (acc : PdfResult),
          acc.tables_found
              = (acc.pages.map
                  (fun pd => (pd.tables.filter (fun t => !t.isEmpty)).length)).sum →
            (mupdfLoop use_ocr preserve_tables handle_multi_column ps idx acc).tables_found
              = ((mupdfLoop use_ocr preserve_tables handle_multi_column ps idx acc).pages.map
                  (fun pd => (pd.tables.filter (fun t => !t.isEmpty)).length)).sum)
      ∧ (∀ (cfg : PptConfig) (doc : PptxDocument) (use_ocr use_llm_formatting : Bool)
            (nums : List Nat) (acc : PptxResult),
          acc.tables_found
              = (acc.slides.map
                  (fun sd => (sd.tables.filter (fun t => !t.isEmpty)).length)).sum →
            (pptxLoop cfg doc use_ocr use_llm_formatting nums acc).tables_found
              = ((pptxLoop cfg doc use_ocr use_llm_formatting nums acc).slides.map
                  (fun sd => (sd.tables.filter (fun t => !t.isEmpty)).length)).sum) := by
  refine ⟨?_, pptx_tables_sum, ?_, ?_, ?_⟩
  · intro doc use_ocr preserve_tables handle_multi_column
    unfold extract_text_from_pdf
    dsimp only
    by_cases hc :
        pdfFallbackCondition
          (extract_with_pdfplumber doc use_ocr preserve_tables handle_multi_column) = true
    · rw [if_pos hc]
      exact mupdf_tables_sum doc use_ocr preserve_tables handle_multi_column
    · rw [if_neg hc]
      exact plumber_tables_sum doc use_ocr preserve_tables handle_multi_column
  · intro use_ocr preserve_tables ps n acc hinv
    rw [plumberLoop_tables_found, plumberLoop_pages, List.map_append, List.sum_append,
      hinv,
      map_filter_len_eq _
        (fun pd hpd => plumberPagesList_tables_filter use_ocr preserve_tables ps n pd hpd)]
  · intro use_ocr preserve_tables handle_multi_column ps idx acc hinv
    rw [mupdfLoop_tables_found, mupdfLoop_pages, List.map_append, List.sum_append,
      hinv,
      map_filter_len_eq
        (mupdfPagesList use_ocr preserve_tables handle_multi_column idx ps)
        (fun pd hpd => by
          rw [mupdfPagesList_tables use_ocr preserve_tables handle_multi_column
            ps idx pd hpd]
          rfl)]
  · intro cfg doc use_ocr use_llm_formatting nums acc hinv
    rw [pptxLoop_tables_found, pptxLoop_slides, List.map_append, List.sum_append,
      hinv,
      slide_map_filter_len_eq _
        (fun sd hsd =>
          pptxSlidesList_tables_filter cfg doc use_ocr use_llm_formatting nums sd hsd)]

/-- Witness for C6: one step of the pdfplumber loop over a concrete page
with one non-empty and one empty extracted table preserves the count
equality. -/
theorem tables_found_invariant_witness :
    (plumberLoop true true [tablePage] 1 emptyPdfResult).tables_found
      = ((plumberLoop true true [tablePage] 1 emptyPdfResult).pages.map
          (fun pd => (pd.tables.filter (fun t => !t.isEmpty)).length)).sum :=
  tables_found_invariant.2.2.1 true true [tablePage] 1 emptyPdfResult (by decide)

/-- C4: with a non-empty requested slide list, the numbers outside
`[1, total_slides]` are removed before processing, and the processed
slide numbers are exactly the filtered list — or all of
`1, ..., total_slides` when the filtered list is empty. -/
theorem slide_number_validation (cfg : PptConfig) (doc : PptxDocument)
    (sns : List Nat) (use_ocr use_llm_formatting : Bool) (hne : sns ≠ []) :
    ((extract_text_from_pptx cfg doc (some sns) use_ocr use_llm_formatting).slides.map
        (fun sd => sd.slide_number)
      = (if (validSlideNumbers doc.slides.length sns).isEmpty = true
         then List.range' 1 doc.slides.length
         else validSlideNumbers doc.slides.length sns))
      ∧ (∀ sn ∈ validSlideNumbers doc.slides.length sns,
          1 ≤ sn ∧ sn ≤ doc.slides.length) := by
  constructor
  · have hne' : sns.isEmpty = false := by
      cases sns with
      | nil => exact absurd rfl hne
      | cons a as => rfl
    unfold extract_text_from_pptx
    dsimp only
    rw [pptxLoop_slides]
    simp only [List.nil_append]
    rw [pptxSlidesList_map_number]
    unfold validate_slide_numbers slidesToProcess
    dsimp only
    cases hv : (validSlideNumbers doc.slides.length sns).isEmpty
    · simp [hne', hv]
    · simp [hne', hv]
  · intro sn hsn
    unfold validSlideNumbers at hsn
    simp [List.mem_filter] at hsn
    exact ⟨hsn.2.1, hsn.2.2⟩

/-- Witness for C4: requesting slides 0, 2 and 99 of a three-slide deck
processes exactly slide 2. -/
theorem slide_number_validation_witness :
    (extract_text_from_pptx cfgAll pptxDoc3 (some [0, 2, 99]) false false).slides.map
        (fun sd => sd.slide_number) = [2] := by
  have h := (slide_number_validation cfgAll pptxDoc3 [0, 2, 99] false false (by decide)).1
  rw [h]
  decide

/-- C5 counterexample: on a concrete table whose second row is shorter,
the source formatter's output differs from the claim's rendering in which
missing cells appear as empty strings padded to the column width — the
source omits absent cells instead of rendering them. -/
theorem ragged_table_counterexample :
    format_tables_as_text [raggedTable] ≠ format_tables_as_text_claim [raggedTable] := by
  decide

/-- C5 as amended: `format_tables_as_text` always returns (it is total),
each rendered row holds exactly the cells present in its source row
(cells absent from a shorter row are omitted, not rendered), and the
width used for column `j` is the maximum `len(str(cell))` over the
entries seen in that column, as stated by the amended reference
rendering. -/
theorem ragged_table_rendering (tables : List (List (List Cell))) :
    format_tables_as_text tables = format_tables_as_text_amended tables := by
  unfold format_tables_as_text format_tables_as_text_amended
  rw [formatTablesLines_eq]

/-- C7: sanitizing a worksheet name first replaces every occurrence of the
characters `\\ / ? * [ ] : '` with an underscore and only then truncates
to the first 31 characters: the result is always the leading 31
characters of the character-wise replaced name. -/
theorem sheet_name_sanitization (s : String) :
    sanitize_sheet_name s
      = String.mk ((s.data.map
          (fun c => if c ∈ excelInvalidChars then '_' else c)).take 31) := by
  unfold sanitize_sheet_name
  rw [foldl_replaceChar excelInvalidChars s]
  dsimp only
  by_cases hl :
      (String.mk (s.data.map
        (fun c => if c ∈ excelInvalidChars then '_' else c))).length > 31
  · rw [if_pos hl]
  · rw [if_neg hl]
    have hle :
        (s.data.map (fun c => if c ∈ excelInvalidChars then '_' else c)).length ≤ 31 :=
      Nat.le_of_not_lt hl
    rw [List.take_of_length_le hle]

end Tools
